import Mathlib

/-!
Verification of the work-coordination core of the Roboflow-Automation-Project
repository.  The definitions below are a shallow embedding of
`src/coordinator.py` (file-backed `URLCoordinator` and the `HTTPCoordinator`
client), `src/coordination_server.py` (the HTTP server's handlers), and the
pipeline orchestrator of `src/dataset_mover.py` (`TabState`, `_run_pipeline`,
`_tick_slot_fast`, `tick_verifying`).

Modelling conventions:
* Python dict entries become an `Entry` structure with `Option`-valued fields
  (a missing dict key is `none`).
* The coordination ledger (a JSON dict keyed by URL) becomes a function
  `String → Option Entry`; `data[url] = e` is a pointwise update.
* `time.time()` values are passed in explicitly as `Int` arguments (`now`);
  every statement is relative to the time at which the operation runs.
* Python string slicing `s[:n]` becomes `pyTake n s` (first `n` characters).
-/

/-! ## Status constants (src/coordinator.py lines 39-41) -/

def STATUS_HELD : String := "held"

def STATUS_DONE : String := "done"

def STATUS_FAILED : String := "failed"

/-! ## Ledger entries and the coordination ledger -/

/-- One value of the coordination dict.  Fields mirror the JSON keys used by
`URLCoordinator` and the coordination server; a field that the Python dict
does not contain is `none`. -/
structure Entry where
  status : Option String
  holder : Option String
  worker : Option String
  claimed_at : Option Int
  updated_at : Option Int
  error : Option String
deriving Repr, DecidableEq

/-- The empty Python dict `{}` used by `data.get(url, {})`. -/
def Entry.empty : Entry :=
  { status := none, holder := none, worker := none,
    claimed_at := none, updated_at := none, error := none }

/-- The coordination data: a key → entry map (Python dict). -/
def Ledger : Type := String → Option Entry

/-- The empty coordination file / server store. -/
def Ledger.empty : Ledger := fun _ => none

/-- Python `data.get(url)`. -/
def Ledger.get? (d : Ledger) (url : String) : Option Entry := d url

/-- Python `data[url] = e`. -/
def Ledger.set (d : Ledger) (url : String) (e : Entry) : Ledger :=
  fun k => if k = url then some e else d k

/-- Python string slicing `s[:n]`: the first `n` characters of `s`. -/
def pyTake (n : Nat) (s : String) : String := ⟨s.data.take n⟩

/-! ## URLCoordinator (src/coordinator.py) -/

/-- Embedding of `URLCoordinator.claim` (src/coordinator.py lines 94-131).
Returns the granted flag together with the updated ledger.  The Python
read-modify-write runs under the file lock, so one `now` covers the whole
operation. -/
def URLCoordinator.claim (staleTimeout now : Int) (d : Ledger) (url holder : String) :
    Bool × Ledger :=
  let entry := d.get? url
  let denied : Bool :=
    match entry with
    | none => false
    | some e =>
      if e.status = some STATUS_DONE ∨ e.status = some STATUS_FAILED then
        true
      else if e.status = some STATUS_HELD then
        decide (now - e.updated_at.getD 0 < staleTimeout)
      else
        false
  if denied then
    (false, d)
  else
    (true, d.set url
      { status := some STATUS_HELD
        holder := some holder
        worker := none
        claimed_at := some (match entry with
                            | some e => e.claimed_at.getD now
                            | none => now)
        updated_at := some now
        error := none })

/-- Embedding of `URLCoordinator.batch_claim` (src/coordinator.py lines
133-141): claim each URL in order, appending to `granted` / `denied`. -/
def URLCoordinator.batchClaimGo (staleTimeout now : Int) (holder : String) :
    List String → Ledger → List String → List String →
    List String × List String × Ledger
  | [], d, granted, denied => (granted, denied, d)
  | url :: rest, d, granted, denied =>
    let r := URLCoordinator.claim staleTimeout now d url holder
    if r.1 then
      URLCoordinator.batchClaimGo staleTimeout now holder rest r.2 (granted ++ [url]) denied
    else
      URLCoordinator.batchClaimGo staleTimeout now holder rest r.2 granted (denied ++ [url])

/-- Embedding of `URLCoordinator.batch_claim`: the public entry point. -/
def URLCoordinator.batch_claim (staleTimeout now : Int) (d : Ledger)
    (urls : List String) (holder : String) : List String × List String × Ledger :=
  URLCoordinator.batchClaimGo staleTimeout now holder urls d [] []

/-- Embedding of `URLCoordinator._update_status` (src/coordinator.py lines
250-260): `data[url] = {**data.get(url, {}), "status": s, "updated_at": now}`. -/
def URLCoordinator.updateStatus (now : Int) (d : Ledger) (url newStatus : String) :
    Ledger :=
  let entry := (d.get? url).getD Entry.empty
  d.set url { entry with status := some newStatus, updated_at := some now }

/-- Embedding of `URLCoordinator.mark_done` (src/coordinator.py lines 143-146). -/
def URLCoordinator.mark_done (now : Int) (d : Ledger) (url : String) : Ledger :=
  URLCoordinator.updateStatus now d url STATUS_DONE

/-- Embedding of `URLCoordinator.mark_failed` (src/coordinator.py lines
148-160): status becomes failed, `error` is the message truncated to 200
characters, all other fields of the previous entry are kept. -/
def URLCoordinator.mark_failed (now : Int) (d : Ledger) (url err : String) : Ledger :=
  let entry := (d.get? url).getD Entry.empty
  d.set url { entry with
              status := some STATUS_FAILED
              updated_at := some now
              error := some (pyTake 200 err) }

/-- Embedding of `URLCoordinator.is_available` (src/coordinator.py lines
162-188). -/
def URLCoordinator.is_available (staleTimeout now : Int) (d : Ledger) (url : String) :
    Bool :=
  match d.get? url with
  | none => true
  | some e =>
    if e.status = some STATUS_DONE then false
    else if e.status = some STATUS_HELD then
      decide (now - e.updated_at.getD 0 ≥ staleTimeout)
    else if e.status = some STATUS_FAILED then true
    else true

/-! ## Coordination server handlers (src/coordination_server.py) -/

/-- Embedding of the server helper `_is_stale` (src/coordination_server.py
lines 133-138). -/
def Server.isStale (staleTimeout now : Int) (e : Entry) : Bool :=
  if e.status ≠ some STATUS_HELD then false
  else decide (now - e.updated_at.getD 0 ≥ staleTimeout)

/-- The entry dict written by the server's `/claim` and `/batch_claim`
handlers (src/coordination_server.py lines 186-193 and 234-241, identical
literals). -/
def Server.claimEntry (now : Int) (holder worker : String) (entry : Option Entry) : Entry :=
  { status := some STATUS_HELD
    holder := some holder
    worker := some worker
    claimed_at := some (match entry with
                        | some e => e.claimed_at.getD now
                        | none => now)
    updated_at := some now
    error := none }

/-- Embedding of the `/claim` handler (src/coordination_server.py lines
152-196).  Identical decision logic to `URLCoordinator.claim`, but the
written entry additionally records the claiming worker. -/
def Server.claim (staleTimeout now : Int) (d : Ledger) (url holder worker : String) :
    Bool × Ledger :=
  let entry := d.get? url
  let denied : Bool :=
    match entry with
    | none => false
    | some e =>
      if e.status = some STATUS_DONE ∨ e.status = some STATUS_FAILED then
        true
      else if e.status = some STATUS_HELD ∧ ¬ Server.isStale staleTimeout now e then
        true
      else
        false
  if denied then
    (false, d)
  else
    (true, d.set url (Server.claimEntry now holder worker entry))

/-- Embedding of the loop body of the `/batch_claim` handler
(src/coordination_server.py lines 222-244): the per-URL `claimable` check. -/
def Server.claimable (staleTimeout now : Int) (entry : Option Entry) : Bool :=
  match entry with
  | none => true
  | some e =>
    if e.status = some STATUS_DONE ∨ e.status = some STATUS_FAILED then false
    else if e.status = some STATUS_HELD ∧ ¬ Server.isStale staleTimeout now e then false
    else true

/-- Embedding of the `/batch_claim` handler (src/coordination_server.py lines
199-250): each URL is checked and (when claimable) written in turn under one
lock, accumulating `granted` and `denied` by appending. -/
def Server.batchClaimGo (staleTimeout now : Int) (holder worker : String) :
    List String → Ledger → List String → List String →
    List String × List String × Ledger
  | [], d, granted, denied => (granted, denied, d)
  | url :: rest, d, granted, denied =>
    let entry := d.get? url
    if Server.claimable staleTimeout now entry then
      Server.batchClaimGo staleTimeout now holder worker rest
        (d.set url (Server.claimEntry now holder worker entry))
        (granted ++ [url]) denied
    else
      Server.batchClaimGo staleTimeout now holder worker rest d granted (denied ++ [url])

/-- Embedding of the `/batch_claim` handler: the public entry point. -/
def Server.batch_claim (staleTimeout now : Int) (d : Ledger) (urls : List String)
    (holder worker : String) : List String × List String × Ledger :=
  Server.batchClaimGo staleTimeout now holder worker urls d [] []

/-- Embedding of the `/done` handler (src/coordination_server.py lines
253-267). -/
def Server.done (now : Int) (d : Ledger) (url worker : String) : Ledger :=
  let entry := (d.get? url).getD Entry.empty
  d.set url { entry with
              status := some STATUS_DONE
              worker := some worker
              updated_at := some now }

/-- Embedding of the `/failed` handler (src/coordination_server.py lines
270-291): status failed, worker recorded, error truncated to 200 characters. -/
def Server.failed (now : Int) (d : Ledger) (url err worker : String) : Ledger :=
  let entry := (d.get? url).getD Entry.empty
  d.set url { entry with
              status := some STATUS_FAILED
              worker := some worker
              updated_at := some now
              error := some (pyTake 200 err) }

/-! ## Claim-grant characterisation (C1) -/

/-- Spec data-model well-formedness: an entry's status is one of the three
statuses of section 3 of the specification. -/
def WellFormedStatus (e : Entry) : Prop :=
  e.status = some STATUS_HELD ∨ e.status = some STATUS_DONE ∨ e.status = some STATUS_FAILED

/-- The grant condition of the specification: absent, failed, or held and
stale. -/
def grantCondition (staleTimeout now : Int) (entry : Option Entry) : Prop :=
  entry = none ∨
  ∃ e, entry = some e ∧
    (e.status = some STATUS_FAILED ∨
     (e.status = some STATUS_HELD ∧ staleTimeout ≤ now - e.updated_at.getD 0))


/-- Amended grant condition matching the code: absent, or held and stale.
`claim` denies DONE and FAILED entries alike (src/coordinator.py line 110,
src/coordination_server.py line 173); only `is_available` treats FAILED as
available. -/
def grantConditionAmended (staleTimeout now : Int) (entry : Option Entry) : Prop :=
  entry = none ∨
  ∃ e, entry = some e ∧
    e.status = some STATUS_HELD ∧ staleTimeout ≤ now - e.updated_at.getD 0

/-- Counterexample to C1 as stated: a FAILED entry satisfies the claimed
grant condition, yet both the file-backed coordinator and the server's
/claim handler deny the claim. -/
theorem claim_grant_iff_cex :
    grantCondition 1800 1000
      ((Ledger.empty.set "A"
        { status := some STATUS_FAILED, holder := some "x", worker := none,
          claimed_at := some 0, updated_at := some 0, error := some "boom" }).get? "A") ∧
    (URLCoordinator.claim 1800 1000
      (Ledger.empty.set "A"
        { status := some STATUS_FAILED, holder := some "x", worker := none,
          claimed_at := some 0, updated_at := some 0, error := some "boom" })
      "A" "y").1 = false ∧
    (Server.claim 1800 1000
      (Ledger.empty.set "A"
        { status := some STATUS_FAILED, holder := some "x", worker := none,
          claimed_at := some 0, updated_at := some 0, error := some "boom" })
      "A" "y" "w").1 = false := by
  refine ⟨Or.inr ⟨_, rfl, Or.inl rfl⟩, by decide, by decide⟩

/-- C1 (amended): for every well-formed ledger state and every key, `claim`
grants exactly when the entry is absent, or is held and stale (age at least
`stale_timeout`); DONE, FAILED, and freshly-held entries are denied, and the
file-backed coordinator and the HTTP server's /claim handler decide
identically. -/
theorem claim_grant_iff (st now : Int) (d : Ledger) (url holder worker : String)
    (hwf : ∀ e, d.get? url = some e → WellFormedStatus e) :
    ((URLCoordinator.claim st now d url holder).1 = true ↔
      grantConditionAmended st now (d.get? url)) ∧
    ((Server.claim st now d url holder worker).1 = true ↔
      grantConditionAmended st now (d.get? url)) ∧
    (Server.claim st now d url holder worker).1 =
      (URLCoordinator.claim st now d url holder).1 := by
  cases h : d.get? url with
  | none =>
    simp [URLCoordinator.claim, Server.claim, grantConditionAmended, h]
  | some e =>
    rcases hwf e h with hs | hs | hs <;>
      simp [URLCoordinator.claim, Server.claim, Server.isStale, grantConditionAmended,
        h, hs, STATUS_HELD, STATUS_DONE, STATUS_FAILED] <;>
      split_ifs with hc <;> simp_all <;> omega

/-- Witness for C1 at a concrete input: a stale held entry (updated at time 0,
queried at time 2000, stale timeout 1800) is granted. -/
theorem claim_grant_iff_witness :
    ((URLCoordinator.claim 1800 2000
        (Ledger.empty.set "A"
          { status := some STATUS_HELD, holder := some "x", worker := none,
            claimed_at := some 0, updated_at := some 0, error := none })
        "A" "y").1 = true ↔
      grantConditionAmended 1800 2000
        ((Ledger.empty.set "A"
          { status := some STATUS_HELD, holder := some "x", worker := none,
            claimed_at := some 0, updated_at := some 0, error := none }).get? "A")) ∧
    (URLCoordinator.claim 1800 2000
        (Ledger.empty.set "A"
          { status := some STATUS_HELD, holder := some "x", worker := none,
            claimed_at := some 0, updated_at := some 0, error := none })
        "A" "y").1 = true :=
  ⟨(claim_grant_iff 1800 2000 _ "A" "y" "w"
      (fun e he => by
        rw [show (Ledger.empty.set "A"
          { status := some STATUS_HELD, holder := some "x", worker := none,
            claimed_at := some 0, updated_at := some 0, error := none }).get? "A" =
            some { status := some STATUS_HELD, holder := some "x", worker := none,
                   claimed_at := some 0, updated_at := some 0, error := none } from rfl] at he
        cases he
        exact Or.inl rfl)).1,
   by decide⟩


/-! ## Ledger lookup lemmas -/

theorem Ledger.get?_set_self (d : Ledger) (url : String) (e : Entry) :
    (d.set url e).get? url = some e := by
  simp [Ledger.get?, Ledger.set]

theorem Ledger.get?_set_ne (d : Ledger) {k url : String} (h : k ≠ url) (e : Entry) :
    (d.set url e).get? k = d.get? k := by
  simp [Ledger.get?, Ledger.set, h]

theorem Ledger.get?_empty (url : String) : Ledger.empty.get? url = none := rfl

/-! ## Stale-claim reclamation scenario (C3) -/

/-- C3: starting from an empty ledger, claim("A","x") at time t0 is granted;
claim("A","y") at time t1 before the stale timeout has elapsed is denied; and
claim("A","y") at time t2 with at least the stale timeout elapsed is granted,
after which the entry's holder is "y", its status is held, its original
claimed_at is preserved and its updated_at is t2. -/
theorem stale_reclaim_scenario (st t0 t1 t2 : Int)
    (hfresh : t1 - t0 < st) (hstale : st ≤ t2 - t0) :
    (URLCoordinator.claim st t0 Ledger.empty "A" "x").1 = true ∧
    (URLCoordinator.claim st t1
      (URLCoordinator.claim st t0 Ledger.empty "A" "x").2 "A" "y").1 = false ∧
    (URLCoordinator.claim st t2
      (URLCoordinator.claim st t0 Ledger.empty "A" "x").2 "A" "y").1 = true ∧
    ((URLCoordinator.claim st t2
      (URLCoordinator.claim st t0 Ledger.empty "A" "x").2 "A" "y").2.get? "A" =
      some { status := some STATUS_HELD, holder := some "y", worker := none,
             claimed_at := some t0, updated_at := some t2, error := none }) := by
  have h0 : URLCoordinator.claim st t0 Ledger.empty "A" "x" =
      (true, Ledger.empty.set "A"
        { status := some STATUS_HELD, holder := some "x", worker := none,
          claimed_at := some t0, updated_at := some t0, error := none }) := by
    simp [URLCoordinator.claim, Ledger.get?, Ledger.empty]
  have hns : ¬ (t2 - t0 < st) := not_lt.mpr hstale
  rw [h0]
  refine ⟨rfl, ?_, ?_, ?_⟩ <;>
    simp [URLCoordinator.claim, Ledger.get?_set_self, hfresh, hns,
      STATUS_HELD, STATUS_DONE, STATUS_FAILED]

/-- Witness for C3 with concrete times: t0 = 0, t1 = 100, t2 = 1800,
stale timeout 1800. -/
theorem stale_reclaim_scenario_witness :
    (URLCoordinator.claim 1800 0 Ledger.empty "A" "x").1 = true ∧
    (URLCoordinator.claim 1800 100
      (URLCoordinator.claim 1800 0 Ledger.empty "A" "x").2 "A" "y").1 = false ∧
    (URLCoordinator.claim 1800 1800
      (URLCoordinator.claim 1800 0 Ledger.empty "A" "x").2 "A" "y").1 = true ∧
    ((URLCoordinator.claim 1800 1800
      (URLCoordinator.claim 1800 0 Ledger.empty "A" "x").2 "A" "y").2.get? "A" =
      some { status := some STATUS_HELD, holder := some "y", worker := none,
             claimed_at := some 0, updated_at := some 1800, error := none }) :=
  stale_reclaim_scenario 1800 0 100 1800 (by decide) (by decide)

/-! ## Reclamation frame property (C4) -/

/-- C4: a stale held entry that is reclaimed is granted, and the re-claim
writes an entry consisting of exactly status (held), holder, worker (the
server records the claiming worker; the file coordinator stores no worker
key), the preserved claimed_at, and updated_at set to the current time,
which strictly advances; in particular the error field is not carried over.
Holds for both the file-backed coordinator and the server's /claim handler. -/
theorem stale_reclaim_frame (st now u c : Int) (d : Ledger)
    (url holder worker : String) (e : Entry)
    (hget : d.get? url = some e)
    (hheld : e.status = some STATUS_HELD)
    (hclaimed : e.claimed_at = some c)
    (hupdated : e.updated_at = some u)
    (hstale : st ≤ now - u)
    (hpos : 0 < st) :
    (URLCoordinator.claim st now d url holder).1 = true ∧
    ((URLCoordinator.claim st now d url holder).2.get? url =
      some { status := some STATUS_HELD, holder := some holder, worker := none,
             claimed_at := some c, updated_at := some now, error := none }) ∧
    (Server.claim st now d url holder worker).1 = true ∧
    ((Server.claim st now d url holder worker).2.get? url =
      some { status := some STATUS_HELD, holder := some holder, worker := some worker,
             claimed_at := some c, updated_at := some now, error := none }) ∧
    u < now := by
  have hns : ¬ (now - e.updated_at.getD 0 < st) := by
    rw [hupdated]; simpa using not_lt.mpr hstale
  have hst : st ≤ now - e.updated_at.getD 0 := by rw [hupdated]; simpa using hstale
  refine ⟨?_, ?_, ?_, ?_, by omega⟩ <;>
    simp [URLCoordinator.claim, Server.claim, Server.isStale, Server.claimEntry,
      hget, hheld, hclaimed, hns, hst, Ledger.get?_set_self,
      STATUS_HELD, STATUS_DONE, STATUS_FAILED]

/-- Witness for C4: a held entry claimed at time 5, updated at time 10, is
reclaimed at time 2000 under stale timeout 1800. -/
theorem stale_reclaim_frame_witness :
    (URLCoordinator.claim 1800 2000
      (Ledger.empty.set "A"
        { status := some STATUS_HELD, holder := some "x", worker := none,
          claimed_at := some 5, updated_at := some 10, error := some "old" })
      "A" "y").1 = true ∧
    ((URLCoordinator.claim 1800 2000
      (Ledger.empty.set "A"
        { status := some STATUS_HELD, holder := some "x", worker := none,
          claimed_at := some 5, updated_at := some 10, error := some "old" })
      "A" "y").2.get? "A" =
      some { status := some STATUS_HELD, holder := some "y", worker := none,
             claimed_at := some 5, updated_at := some 2000, error := none }) ∧
    (Server.claim 1800 2000
      (Ledger.empty.set "A"
        { status := some STATUS_HELD, holder := some "x", worker := none,
          claimed_at := some 5, updated_at := some 10, error := some "old" })
      "A" "y" "w").1 = true ∧
    ((Server.claim 1800 2000
      (Ledger.empty.set "A"
        { status := some STATUS_HELD, holder := some "x", worker := none,
          claimed_at := some 5, updated_at := some 10, error := some "old" })
      "A" "y" "w").2.get? "A" =
      some { status := some STATUS_HELD, holder := some "y", worker := some "w",
             claimed_at := some 5, updated_at := some 2000, error := none }) ∧
    (10 : Int) < 2000 :=
  stale_reclaim_frame 1800 2000 10 5 _ "A" "y" "w" _
    (Ledger.get?_set_self _ _ _) rfl rfl rfl (by decide) (by decide)

/-! ## Terminal-transition idempotence (C5) -/

/-- C5: marking a key done twice (at times t1 then t2) leaves exactly the
ledger that marking it once (at t2) leaves, and likewise for marking it
failed with the same reason; both operations also succeed on a key with no
prior entry, writing a fresh terminal entry. -/
theorem mark_terminal_idempotent (t1 t2 : Int) (d : Ledger) (url err : String) :
    URLCoordinator.mark_done t2 (URLCoordinator.mark_done t1 d url) url =
      URLCoordinator.mark_done t2 d url ∧
    URLCoordinator.mark_failed t2 (URLCoordinator.mark_failed t1 d url err) url err =
      URLCoordinator.mark_failed t2 d url err ∧
    (URLCoordinator.mark_done t1 Ledger.empty url).get? url =
      some { Entry.empty with status := some STATUS_DONE, updated_at := some t1 } ∧
    (URLCoordinator.mark_failed t1 Ledger.empty url err).get? url =
      some { Entry.empty with
             status := some STATUS_FAILED
             updated_at := some t1
             error := some (pyTake 200 err) } := by
  refine ⟨?_, ?_, ?_, ?_⟩
  · funext k
    by_cases hk : k = url <;>
      simp [URLCoordinator.mark_done, URLCoordinator.updateStatus,
        Ledger.get?, Ledger.set, hk] <;>
      cases d url <;> rfl
  · funext k
    by_cases hk : k = url <;>
      simp [URLCoordinator.mark_failed, Ledger.get?, Ledger.set, hk] <;>
      cases d url <;> rfl
  · simp [URLCoordinator.mark_done, URLCoordinator.updateStatus,
      Ledger.get?, Ledger.set, Ledger.empty, Entry.empty]
  · simp [URLCoordinator.mark_failed, Ledger.get?, Ledger.set, Ledger.empty, Entry.empty]

/-! ## Error-message truncation (C10) -/

/-- C10: mark_failed stores exactly the first 200 characters of the error
message, in both the file-backed coordinator and the server's /failed
handler; the stored error never exceeds 200 characters, and messages of at
most 200 characters are stored unchanged. -/
theorem mark_failed_truncates (now : Int) (d : Ledger) (url err worker : String) :
    (∃ e, (URLCoordinator.mark_failed now d url err).get? url = some e ∧
      e.error = some (pyTake 200 err) ∧ e.status = some STATUS_FAILED) ∧
    (∃ e, (Server.failed now d url err worker).get? url = some e ∧
      e.error = some (pyTake 200 err) ∧ e.status = some STATUS_FAILED) ∧
    (pyTake 200 err).length ≤ 200 ∧
    (err.length ≤ 200 → pyTake 200 err = err) := by
  refine ⟨⟨_, Ledger.get?_set_self _ _ _, rfl, rfl⟩,
          ⟨_, Ledger.get?_set_self _ _ _, rfl, rfl⟩, ?_, ?_⟩
  · show (err.data.take 200).length ≤ 200
    simp [List.length_take]
  · intro hle
    show (⟨err.data.take 200⟩ : String) = err
    rw [List.take_of_length_le hle]

/-! ## Batch-claim equivalence (C2) -/

/-- Reference semantics from the spec: issue `claim` once per key in list
order against the evolving ledger, partitioning keys into granted and
denied.  This is the spec-side definition C2 compares the file-backed
`batch_claim` against. -/
def seqClaimsFile (staleTimeout now : Int) (d : Ledger) (urls : List String)
    (holder : String) : List String × List String × Ledger :=
  match urls with
  | [] => ([], [], d)
  | url :: rest =>
    let r := URLCoordinator.claim staleTimeout now d url holder
    let t := seqClaimsFile staleTimeout now r.2 rest holder
    if r.1 then (url :: t.1, t.2.1, t.2.2) else (t.1, url :: t.2.1, t.2.2)

/-- Reference semantics from the spec for the server: issue the /claim
handler once per key in list order against the evolving store. -/
def seqClaimsServer (staleTimeout now : Int) (d : Ledger) (urls : List String)
    (holder worker : String) : List String × List String × Ledger :=
  match urls with
  | [] => ([], [], d)
  | url :: rest =>
    let r := Server.claim staleTimeout now d url holder worker
    let t := seqClaimsServer staleTimeout now r.2 rest holder worker
    if r.1 then (url :: t.1, t.2.1, t.2.2) else (t.1, url :: t.2.1, t.2.2)

theorem fileBatchClaimGo_spec (st now : Int) (holder : String)
    (urls : List String) :
    ∀ d g0 d0, URLCoordinator.batchClaimGo st now holder urls d g0 d0 =
      (g0 ++ (seqClaimsFile st now d urls holder).1,
       d0 ++ (seqClaimsFile st now d urls holder).2.1,
       (seqClaimsFile st now d urls holder).2.2) := by
  induction urls with
  | nil => intro d g0 d0; simp [URLCoordinator.batchClaimGo, seqClaimsFile]
  | cons u rest ih =>
    intro d g0 d0
    by_cases h : (URLCoordinator.claim st now d u holder).1 <;>
      simp [URLCoordinator.batchClaimGo, seqClaimsFile, h, ih]

/-- The server's /claim handler, phrased through the /batch_claim handler's
`claimable` check: both deny in exactly the same cases and write the same
entry. -/
theorem Server.claim_eq_claimable (st now : Int) (d : Ledger) (url holder worker : String) :
    Server.claim st now d url holder worker =
      if Server.claimable st now (d.get? url) then
        (true, d.set url (Server.claimEntry now holder worker (d.get? url)))
      else (false, d) := by
  cases h : d.get? url with
  | none => simp [Server.claim, Server.claimable, h]
  | some e =>
    by_cases h1 : e.status = some STATUS_DONE ∨ e.status = some STATUS_FAILED <;>
      by_cases h2 : e.status = some STATUS_HELD ∧ ¬ Server.isStale st now e <;>
      simp [Server.claim, Server.claimable, h, h1, h2] <;>
      split_ifs <;> simp_all

theorem serverBatchClaimGo_spec (st now : Int) (holder worker : String)
    (urls : List String) :
    ∀ d g0 d0, Server.batchClaimGo st now holder worker urls d g0 d0 =
      (g0 ++ (seqClaimsServer st now d urls holder worker).1,
       d0 ++ (seqClaimsServer st now d urls holder worker).2.1,
       (seqClaimsServer st now d urls holder worker).2.2) := by
  induction urls with
  | nil => intro d g0 d0; simp [Server.batchClaimGo, seqClaimsServer]
  | cons u rest ih =>
    intro d g0 d0
    by_cases h : Server.claimable st now (d.get? u) <;>
      simp [Server.batchClaimGo, seqClaimsServer, Server.claim_eq_claimable, h, ih]

/-- C2: for every starting ledger, key list and holder, batch_claim returns
exactly the partition produced by issuing individual claim calls
sequentially in list order against the same starting state (each grant's
write visible to later claims), and leaves the same final ledger; this
holds for the file-backed coordinator and for the server's /batch_claim
handler. -/
theorem batch_claim_equiv (st now : Int) (d : Ledger) (urls : List String)
    (holder worker : String) :
    URLCoordinator.batch_claim st now d urls holder =
      seqClaimsFile st now d urls holder ∧
    Server.batch_claim st now d urls holder worker =
      seqClaimsServer st now d urls holder worker := by
  constructor
  · rw [URLCoordinator.batch_claim, fileBatchClaimGo_spec]
    simp
  · rw [Server.batch_claim, serverBatchClaimGo_spec]
    simp

/-! ## HTTPCoordinator client retry behaviour (C6) -/

/-- Outcome of one HTTP request attempt, as distinguished by the except
clauses of `HTTPCoordinator._post` / `_get` (src/coordinator.py lines
352-388): a parsed JSON response, a ConnectionError, a Timeout, or any
other RequestException (including HTTP error statuses raised by
`raise_for_status`). -/
inductive HttpAttempt (α : Type) where
  | success (resp : α)
  | connError
  | timeout
  | otherError
deriving Repr, DecidableEq

/-- Result of `_post`/`_get` together with the observable effort: how many
HTTP requests were issued and how many fixed 2-second backoff sleeps were
taken.  The Python functions return a value in every branch, so the model
is a total function — no exception reaches the caller. -/
structure RequestTrace (α : Type) where
  result : Option α
  requests : Nat
  backoffSleeps : Nat
deriving Repr, DecidableEq

/-- Embedding of `HTTPCoordinator._post` (src/coordinator.py lines 352-369):
`for attempt in range(2)` — a connection error or timeout on attempt 0
sleeps the fixed backoff and retries once; any failure on attempt 1, or a
non-retryable RequestException on attempt 0, returns the caller's default. -/
def HTTPCoordinator.post {α : Type} (attempts : Nat → HttpAttempt α)
    (dflt : Option α) : RequestTrace α :=
  match attempts 0 with
  | .success r => ⟨some r, 1, 0⟩
  | .otherError => ⟨dflt, 1, 0⟩
  | .connError | .timeout =>
    match attempts 1 with
    | .success r => ⟨some r, 2, 1⟩
    | .otherError => ⟨dflt, 2, 1⟩
    | .connError | .timeout => ⟨dflt, 2, 1⟩

/-- Embedding of `HTTPCoordinator._get` (src/coordinator.py lines 371-388):
same retry structure as `_post`. -/
def HTTPCoordinator.get {α : Type} (attempts : Nat → HttpAttempt α)
    (dflt : Option α) : RequestTrace α :=
  match attempts 0 with
  | .success r => ⟨some r, 1, 0⟩
  | .otherError => ⟨dflt, 1, 0⟩
  | .connError | .timeout =>
    match attempts 1 with
    | .success r => ⟨some r, 2, 1⟩
    | .otherError => ⟨dflt, 2, 1⟩
    | .connError | .timeout => ⟨dflt, 2, 1⟩

/-- The JSON body of a /claim response: `{"ok": bool}`. -/
structure ClaimResp where
  ok : Bool
deriving Repr, DecidableEq

/-- The JSON body of an /available response: `{"available": bool}`. -/
structure AvailableResp where
  available : Bool
deriving Repr, DecidableEq

/-- Embedding of `HTTPCoordinator.claim` (src/coordinator.py lines 398-409):
POST /claim with default `{"ok": False}`; granted iff the response (or the
default) carries a true ok field. -/
def HTTPCoordinator.claim (attempts : Nat → HttpAttempt ClaimResp) :
    Bool × RequestTrace ClaimResp :=
  let t := HTTPCoordinator.post attempts (some { ok := false })
  (match t.result with
   | some r => r.ok
   | none => false,
   t)

/-- Embedding of `HTTPCoordinator.is_available` (src/coordinator.py lines
447-455): GET /available with default `{"available": True}`. -/
def HTTPCoordinator.is_available (attempts : Nat → HttpAttempt AvailableResp) :
    Bool × RequestTrace AvailableResp :=
  let t := HTTPCoordinator.get attempts (some { available := true })
  (match t.result with
   | some r => r.available
   | none => false,
   t)

/-- C6: when every request attempt fails with a connection error or timeout,
each HTTP-client operation issues exactly two requests (one retry) with one
fixed backoff sleep and degrades to its safe default: claim is denied,
is_available reports available.  Both model functions are total, so no
exception propagates to the caller. -/
theorem http_safe_defaults
    (ca : Nat → HttpAttempt ClaimResp) (aa : Nat → HttpAttempt AvailableResp)
    (hc : ∀ i, ca i = .connError ∨ ca i = .timeout)
    (ha : ∀ i, aa i = .connError ∨ aa i = .timeout) :
    (HTTPCoordinator.claim ca).1 = false ∧
    (HTTPCoordinator.claim ca).2.requests = 2 ∧
    (HTTPCoordinator.claim ca).2.backoffSleeps = 1 ∧
    (HTTPCoordinator.is_available aa).1 = true ∧
    (HTTPCoordinator.is_available aa).2.requests = 2 ∧
    (HTTPCoordinator.is_available aa).2.backoffSleeps = 1 := by
  have hc0 := hc 0; have hc1 := hc 1
  have ha0 := ha 0; have ha1 := ha 1
  unfold HTTPCoordinator.claim HTTPCoordinator.is_available
    HTTPCoordinator.post HTTPCoordinator.get
  rcases hc0 with h | h <;> rw [h] <;> rcases hc1 with h1 | h1 <;> rw [h1] <;>
    rcases ha0 with h2 | h2 <;> rw [h2] <;> rcases ha1 with h3 | h3 <;> rw [h3] <;>
    simp

/-- Witness for C6: the oracle whose every attempt is a connection error. -/
theorem http_safe_defaults_witness :
    (HTTPCoordinator.claim (fun _ => .connError)).1 = false ∧
    (HTTPCoordinator.claim (fun _ => .connError)).2.requests = 2 ∧
    (HTTPCoordinator.claim (fun _ => .connError)).2.backoffSleeps = 1 ∧
    (HTTPCoordinator.is_available (fun _ => .connError)).1 = true ∧
    (HTTPCoordinator.is_available (fun _ => .connError)).2.requests = 2 ∧
    (HTTPCoordinator.is_available (fun _ => .connError)).2.backoffSleeps = 1 :=
  http_safe_defaults (fun _ => .connError) (fun _ => .connError)
    (fun _ => Or.inl rfl) (fun _ => Or.inl rfl)

/-! ## Slot state machine (src/dataset_mover.py, class TabState) -/

/-- Pipeline constants (src/dataset_mover.py lines 42-44). -/
def MAX_CARD_RETRIES : Nat := 2

def BLACKLIST_THRESHOLD : Nat := 3

def TabState.PENDING : String := "pending"

def TabState.NAVIGATING : String := "navigating"

def TabState.DETAIL_WAIT : String := "detail_wait"

def TabState.SCANNING : String := "scanning"

def TabState.NULL_CLICKED : String := "null_clicked"

def TabState.CONVERTING : String := "converting"

def TabState.READY : String := "ready"

def TabState.ADD_CLICKED : String := "add_clicked"

def TabState.CONFIRMING : String := "confirming"

def TabState.VERIFYING : String := "verifying"

def TabState.DONE : String := "done"

def TabState.ERROR : String := "error"

def TabState.BLACKLISTED : String := "blacklisted"

/-- Internal bookkeeping marker set by the orchestrator after counting a
DONE slot (src/dataset_mover.py line 2682). -/
def COUNTED_MARK : String := "_counted"

/-- Internal bookkeeping marker set by the orchestrator after re-queuing or
giving up on an ERROR slot (src/dataset_mover.py lines 2704 and 2712). -/
def RECYCLED_MARK : String := "_recycled"

/-- The per-slot state tracked by `TabState` that the orchestrator's
scheduling, retry and blacklist decisions read or write.  Timing, history
and page fields of the Python class are observability-only and are not
modelled. -/
structure Slot where
  job_url : String
  status : String
  error_msg : String
  consecutive_errors : Nat
  retry_count : Nat
  tick_count : Nat
deriving Repr, DecidableEq

/-- Embedding of `TabState.__init__` (src/dataset_mover.py lines 1705-1737):
a fresh slot starts PENDING with zeroed counters. -/
def Slot.new (url : String) : Slot :=
  { job_url := url, status := TabState.PENDING, error_msg := "",
    consecutive_errors := 0, retry_count := 0, tick_count := 0 }

/-- Embedding of `TabState.transition` (src/dataset_mover.py lines
1740-1759): entering ERROR records the message and increments the
consecutive-error count; entering DONE resets the count to zero. -/
def Slot.transition (s : Slot) (newStatus msg : String) : Slot :=
  { s with
    status := newStatus
    error_msg := if newStatus = TabState.ERROR then msg else s.error_msg
    consecutive_errors :=
      if newStatus = TabState.ERROR then s.consecutive_errors + 1
      else if newStatus = TabState.DONE then 0
      else s.consecutive_errors }

/-- Embedding of `TabState.reset_for` (src/dataset_mover.py lines
1778-1800): re-point the slot at a new URL; a retry keeps (and increments)
the retry count and keeps the consecutive-error count, a fresh assignment
zeroes both. -/
def Slot.reset_for (s : Slot) (url : String) (is_retry : Bool) : Slot :=
  { s with
    job_url := url
    status := TabState.PENDING
    error_msg := ""
    tick_count := 0
    retry_count := if is_retry then s.retry_count + 1 else 0
    consecutive_errors := if is_retry then s.consecutive_errors else 0 }

/-! ## Pipeline orchestrator (src/dataset_mover.py, _run_pipeline) -/

/-- Python `retry_tracker.get(url, 0)`. -/
def rtGet (t : List (String × Nat)) (u : String) : Nat :=
  ((t.find? (fun p => p.1 == u)).map Prod.snd).getD 0

/-- Python `url in retry_tracker`. -/
def rtMem (t : List (String × Nat)) (u : String) : Bool :=
  (t.find? (fun p => p.1 == u)).isSome

/-- Python `retry_tracker[url] = n`. -/
def rtSet (t : List (String × Nat)) (u : String) (n : Nat) : List (String × Nat) :=
  (u, n) :: t

/-- The orchestrator's bookkeeping state besides the slot array: the FIFO
queue, the moved counter, the permanently-failed list, the retry tracker,
the blacklist set, and the coordinator's ledger (reached through
mark_failed / mark_done calls). -/
structure Book where
  queue : List String
  moved : Nat
  permanently_failed : List String
  retry_tracker : List (String × Nat)
  blacklisted_urls : List String
  ledger : Ledger

/-- Terminal handling for a finished slot: the body of the recycle branch of
`_run_pipeline` before queue re-assignment (src/dataset_mover.py lines
2679-2714).  DONE is counted and marked `_counted`; ERROR is blacklisted at
the threshold, re-queued while retries remain, and otherwise reported
permanently failed; BLACKLISTED passes through. -/
def recycleStep1 (now : Int) (slot : Slot) (b : Book) : Slot × Book :=
  if slot.status = TabState.DONE then
    ({ slot.transition TabState.DONE "counted" with status := COUNTED_MARK },
     { b with moved := b.moved + 1 })
  else if slot.status = TabState.ERROR then
    let failed_url := slot.job_url
    let retries := rtGet b.retry_tracker failed_url
    if BLACKLIST_THRESHOLD ≤ slot.consecutive_errors then
      ({ slot with status := TabState.BLACKLISTED },
       { b with
         blacklisted_urls := failed_url :: b.blacklisted_urls
         permanently_failed := b.permanently_failed ++ [failed_url]
         ledger := URLCoordinator.mark_failed now b.ledger failed_url
                     ("blacklisted: " ++ slot.error_msg) })
    else if retries < MAX_CARD_RETRIES then
      ({ slot with status := RECYCLED_MARK },
       { b with
         retry_tracker := rtSet b.retry_tracker failed_url (retries + 1)
         queue := b.queue ++ [failed_url] })
    else
      ({ slot with status := RECYCLED_MARK },
       { b with
         permanently_failed := b.permanently_failed ++ [failed_url]
         ledger := URLCoordinator.mark_failed now b.ledger failed_url slot.error_msg })
  else
    (slot, b)

/-- Queue re-assignment for a retired slot (src/dataset_mover.py lines
2716-2726): pop the queue head; a blacklisted head is dropped (the loop
`continue`s), otherwise the slot is reset to the popped URL, counting it as
a retry when the retry tracker knows it. -/
def refill (slot : Slot) (b : Book) : Slot × Book :=
  if slot.status = COUNTED_MARK ∨ slot.status = RECYCLED_MARK ∨
      slot.status = TabState.BLACKLISTED then
    match b.queue with
    | [] => (slot, b)
    | next :: rest =>
      if b.blacklisted_urls.contains next then
        (slot, { b with queue := rest })
      else
        (slot.reset_for next (rtMem b.retry_tracker next), { b with queue := rest })
  else
    (slot, b)

/-- The full recycle branch of `_run_pipeline` for a slot in DONE, ERROR or
BLACKLISTED status (src/dataset_mover.py lines 2678-2728). -/
def recycleSlot (now : Int) (slot : Slot) (b : Book) : Slot × Book :=
  let r := recycleStep1 now slot b
  refill r.1 r.2

/-- The state-machine states that `_tick_slot_fast` dispatches on
(src/dataset_mover.py lines 2821-2840) — exactly the non-terminal states of
the slot state machine.  A slot in any other status falls through the
dispatch unchanged. -/
def nonTerminalStates : List String :=
  [TabState.PENDING, TabState.NAVIGATING, TabState.DETAIL_WAIT, TabState.SCANNING,
   TabState.NULL_CLICKED, TabState.CONVERTING, TabState.READY, TabState.ADD_CLICKED,
   TabState.CONFIRMING, TabState.VERIFYING]

/-- One iteration of the slot loop of `_run_pipeline` (src/dataset_mover.py
lines 2676-2732) for a single slot: finished slots are recycled, all others
receive one tick.  The environment-dependent micro-tick functions (browser
probes and actions) are abstracted as `oracle`; `_tick_slot_fast` reaches
the oracle only for slots in a dispatchable (non-terminal) status. -/
def processSlot (now : Int) (oracle : Slot → Ledger → Slot × Ledger)
    (slot : Slot) (b : Book) : Slot × Book :=
  if slot.status = TabState.DONE ∨ slot.status = TabState.ERROR ∨
      slot.status = TabState.BLACKLISTED then
    recycleSlot now slot b
  else
    let s1 := { slot with tick_count := slot.tick_count + 1 }
    if nonTerminalStates.contains s1.status then
      let r := oracle s1 b.ledger
      (r.1, { b with ledger := r.2 })
    else
      (s1, b)

/-- One full round of the orchestrator loop: visit each slot in order,
threading the bookkeeping state. -/
def processSlots (now : Int) (oracle : Slot → Ledger → Slot × Ledger) :
    List Slot → Book → List Slot × Book
  | [], b => ([], b)
  | s :: rest, b =>
    let r1 := processSlot now oracle s b
    let r2 := processSlots now oracle rest r1.2
    (r1.1 :: r2.1, r2.2)

/-- The orchestrator's full state. -/
structure PState where
  slots : List Slot
  book : Book

/-- One round of `_run_pipeline`'s while loop. -/
def runRound (now : Int) (oracle : Slot → Ledger → Slot × Ledger) (ps : PState) :
    PState :=
  let r := processSlots now oracle ps.slots ps.book
  { slots := r.1, book := r.2 }

/-- Soundness constraints every micro-tick of src/dataset_mover.py
satisfies: a tick never changes the slot's URL, and the tick functions
transition only among state-machine states — the `_counted` / `_recycled`
markers are set exclusively by the orchestrator (lines 2682, 2704, 2712)
and BLACKLISTED only on line 2696. -/
def TickOK (oracle : Slot → Ledger → Slot × Ledger) : Prop :=
  ∀ s led,
    (oracle s led).1.job_url = s.job_url ∧
    (oracle s led).1.status ≠ COUNTED_MARK ∧
    (oracle s led).1.status ≠ RECYCLED_MARK ∧
    (oracle s led).1.status ≠ TabState.BLACKLISTED

/-- One observable step of a pipeline run: one round under some tick
behaviour of the environment at some time. -/
inductive PipelineStep : PState → PState → Prop where
  | round (now : Int) (oracle : Slot → Ledger → Slot × Ledger) (ps : PState)
      (hOk : TickOK oracle) : PipelineStep ps (runRound now oracle ps)

/-- Zero or more rounds. -/
def PipelineReaches (ps ps' : PState) : Prop :=
  Relation.ReflTransGen PipelineStep ps ps'

/-- The initial pipeline state of `_run_pipeline` after the claim phase
(src/dataset_mover.py lines 2635-2654): granted keys fill up to
`num_slots` slots, the rest queue up. -/
def initPipeline (granted : List String) (numSlots : Nat) (led : Ledger) : PState :=
  let slotCount := min numSlots granted.length
  { slots := (granted.take slotCount).map Slot.new
    book := { queue := granted.drop slotCount, moved := 0, permanently_failed := [],
              retry_tracker := [], blacklisted_urls := [], ledger := led } }

/-- The initial pipeline state produced from raw discovered URLs: the
orchestrator first batch-claims them against the coordinator and keeps only
the granted keys (src/dataset_mover.py lines 2640-2654). -/
def runPipelineInit (st now : Int) (d : Ledger) (jobUrls : List String)
    (holder : String) (numSlots : Nat) : PState :=
  let r := URLCoordinator.batch_claim st now d jobUrls holder
  initPipeline r.1 numSlots r.2.2

/-! ## Post-action verification tick (C9) -/

/-- Outcome of the post-action confirmation query performed by
`tick_verifying` (src/dataset_mover.py lines 2234-2258): the re-navigation
confirms completion (redirected off the job page), is inconclusive (job
page still accessible), or the query itself raises. -/
inductive VerifyProbe where
  | confirmed
  | stillAccessible
  | queryRaised
deriving Repr, DecidableEq

/-- Embedding of `tick_verifying` (src/dataset_mover.py lines 2234-2258).
All three probe outcomes fall through to the same tail: the inner except
swallows a raising query (only logging differs between the branches), then
the coordinator is told mark_done and the slot transitions to DONE.  The
outer except does the same, so no path re-attempts the add action or
produces ERROR. -/
def tick_verifying (probe : VerifyProbe) (now : Int) (tab : Slot) (led : Ledger) :
    Slot × Ledger :=
  match probe with
  | .confirmed =>
    (tab.transition TabState.DONE "added to dataset",
     URLCoordinator.mark_done now led tab.job_url)
  | .stillAccessible =>
    (tab.transition TabState.DONE "added to dataset",
     URLCoordinator.mark_done now led tab.job_url)
  | .queryRaised =>
    (tab.transition TabState.DONE "added to dataset",
     URLCoordinator.mark_done now led tab.job_url)

/-- C9: for every outcome of the post-action confirmation query — confirmed,
inconclusive, or the query raising — the verification tick transitions the
slot to DONE (never ERROR, so nothing is re-attempted), keeps the slot on
the same key, and reports mark_done for that key to the coordinator. -/
theorem verify_tick_always_done (probe : VerifyProbe) (now : Int) (tab : Slot)
    (led : Ledger) :
    (tick_verifying probe now tab led).1.status = TabState.DONE ∧
    (tick_verifying probe now tab led).1.status ≠ TabState.ERROR ∧
    (tick_verifying probe now tab led).1.job_url = tab.job_url ∧
    (∃ e, (tick_verifying probe now tab led).2.get? tab.job_url = some e ∧
      e.status = some STATUS_DONE) := by
  cases probe <;>
    refine ⟨rfl, ?_, rfl, ⟨_, Ledger.get?_set_self _ _ _, rfl⟩⟩ <;>
    simp [tick_verifying, Slot.transition, TabState.DONE, TabState.ERROR]

/-! ## Pipeline accounting invariant -/

/-- A slot whose current key has already been absorbed into the
orchestrator's bookkeeping: counted as moved (`_counted`), re-queued or
reported failed (`_recycled`), or blacklisted (the BLACKLISTED status is
set only together with the permanently-failed record). -/
def Slot.isAccounted (s : Slot) : Bool :=
  s.status = COUNTED_MARK ∨ s.status = RECYCLED_MARK ∨ s.status = TabState.BLACKLISTED

/-- The keys currently owned by slots and not yet absorbed into the
bookkeeping. -/
def inflightUrls (slots : List Slot) : List String :=
  (slots.filter (fun s => ! s.isAccounted)).map Slot.job_url

/-- Every key the orchestrator is still responsible for, as a multiset:
an ambient context (keys of slots outside the list under consideration),
the queue, and the in-flight slot keys. -/
def stateKeys (extra : Multiset String) (slots : List Slot) (b : Book) :
    Multiset String :=
  extra + (b.queue : Multiset String) + (inflightUrls slots : Multiset String)

/-- The orchestrator's conservation invariant: moved + permanently failed +
keys still in play equals the batch total; no key is duplicated; and no key
still in play is blacklisted. -/
def BookInv (total : Nat) (extra : Multiset String) (slots : List Slot) (b : Book) :
    Prop :=
  b.moved + b.permanently_failed.length + Multiset.card (stateKeys extra slots b) = total ∧
  (stateKeys extra slots b).Nodup ∧
  ∀ u ∈ stateKeys extra slots b, u ∉ b.blacklisted_urls

/-- The invariant for a whole pipeline state. -/
def PipelineInv (total : Nat) (ps : PState) : Prop :=
  BookInv total 0 ps.slots ps.book

theorem inflightUrls_cons (s : Slot) (l : List Slot) :
    inflightUrls (s :: l) = inflightUrls [s] ++ inflightUrls l := by
  by_cases h : s.isAccounted <;> simp [inflightUrls, h]

theorem BookInv_congr {total : Nat} {extra extra' : Multiset String}
    {slots slots' : List Slot} {b : Book}
    (h : stateKeys extra slots b = stateKeys extra' slots' b) :
    BookInv total extra slots b ↔ BookInv total extra' slots' b := by
  unfold BookInv
  rw [h]

theorem stateKeys_cons (extra : Multiset String) (s : Slot) (rest : List Slot)
    (b : Book) :
    stateKeys extra (s :: rest) b =
      stateKeys (extra + (inflightUrls rest : Multiset String)) [s] b := by
  by_cases h : s.isAccounted <;>
    simp [stateKeys, inflightUrls, h, ← Multiset.cons_coe, ← Multiset.singleton_add] <;>
    abel

theorem nodup_cons_destruct {K K' : Multiset String} {u : String}
    (h : K = u ::ₘ K') (hnd : K.Nodup) : K'.Nodup ∧ u ∉ K' := by
  subst h
  rw [Multiset.nodup_cons] at hnd
  exact ⟨hnd.2, hnd.1⟩

theorem BookInv_transport {total : Nat} {extra extra' : Multiset String}
    {slots slots' : List Slot} {b b' : Book}
    (h : stateKeys extra slots b = stateKeys extra' slots' b')
    (hmoved : b'.moved = b.moved)
    (hpf : b'.permanently_failed = b.permanently_failed)
    (hbl : b'.blacklisted_urls = b.blacklisted_urls)
    (hInv : BookInv total extra slots b) : BookInv total extra' slots' b' := by
  unfold BookInv at hInv ⊢
  rw [← h, hmoved, hpf, hbl]
  exact hInv

theorem BookInv_shrink {total : Nat} {extra extra' : Multiset String}
    {slots slots' : List Slot} {b b' : Book} {u : String}
    (h : stateKeys extra slots b = u ::ₘ stateKeys extra' slots' b')
    (hcount : b'.moved + b'.permanently_failed.length =
      b.moved + b.permanently_failed.length + 1)
    (hbl : b'.blacklisted_urls = b.blacklisted_urls)
    (hInv : BookInv total extra slots b) : BookInv total extra' slots' b' := by
  obtain ⟨hc, hnd, hmem⟩ := hInv
  rw [h] at hc hnd hmem
  rw [Multiset.card_cons] at hc
  refine ⟨by omega, (Multiset.nodup_cons.mp hnd).2, ?_⟩
  intro v hv
  rw [hbl]
  exact hmem v (Multiset.mem_cons_of_mem hv)

theorem BookInv_blacklist {total : Nat} {extra extra' : Multiset String}
    {slots slots' : List Slot} {b b' : Book} {u : String}
    (h : stateKeys extra slots b = u ::ₘ stateKeys extra' slots' b')
    (hcount : b'.moved + b'.permanently_failed.length =
      b.moved + b.permanently_failed.length + 1)
    (hbl : b'.blacklisted_urls = u :: b.blacklisted_urls)
    (hInv : BookInv total extra slots b) : BookInv total extra' slots' b' := by
  obtain ⟨hc, hnd, hmem⟩ := hInv
  rw [h] at hc hnd hmem
  rw [Multiset.card_cons] at hc
  have hu : u ∉ stateKeys extra' slots' b' := (Multiset.nodup_cons.mp hnd).1
  refine ⟨by omega, (Multiset.nodup_cons.mp hnd).2, ?_⟩
  intro v hv
  rw [hbl, List.mem_cons]
  push_neg
  refine ⟨?_, hmem v (Multiset.mem_cons_of_mem hv)⟩
  intro hvu
  exact hu (hvu ▸ hv)

theorem inflightUrls_singleton_acc {s : Slot} (h : s.isAccounted = true) :
    inflightUrls [s] = [] := by
  simp [inflightUrls, h]

theorem inflightUrls_singleton_act {s : Slot} (h : s.isAccounted = false) :
    inflightUrls [s] = [s.job_url] := by
  simp [inflightUrls, h]

theorem reset_for_not_accounted (s : Slot) (u : String) (r : Bool) :
    (s.reset_for u r).isAccounted = false := by
  simp [Slot.reset_for, Slot.isAccounted, COUNTED_MARK, RECYCLED_MARK,
    TabState.PENDING, TabState.BLACKLISTED]

theorem reset_for_job_url (s : Slot) (u : String) (r : Bool) :
    (s.reset_for u r).job_url = u := rfl

theorem contains_eq_false_of_not_mem {l : List String} {u : String}
    (h : u ∉ l) : l.contains u = false := by
  simpa using h

theorem refill_inv (total : Nat) (extra : Multiset String) (s : Slot) (b : Book)
    (hInv : BookInv total extra [s] b) :
    BookInv total extra [(refill s b).1] (refill s b).2 := by
  by_cases hmark : s.status = COUNTED_MARK ∨ s.status = RECYCLED_MARK ∨
      s.status = TabState.BLACKLISTED
  · have hacc : s.isAccounted = true := decide_eq_true hmark
    cases hq : b.queue with
    | nil =>
      have hres : refill s b = (s, b) := by
        simp [refill, hmark, hq]
      rw [hres]
      exact hInv
    | cons next rest =>
      have hnext_mem : next ∈ stateKeys extra [s] b := by
        simp [stateKeys, hq]
      have hnb : next ∉ b.blacklisted_urls := hInv.2.2 next hnext_mem
      have hres : refill s b =
          (s.reset_for next (rtMem b.retry_tracker next), { b with queue := rest }) := by
        simp [refill, hmark, hq, hnb]
      have heq : stateKeys extra [s] b =
          stateKeys extra [s.reset_for next (rtMem b.retry_tracker next)]
            { b with queue := rest } := by
        simp [stateKeys, hq, inflightUrls_singleton_acc hacc,
          inflightUrls_singleton_act (reset_for_not_accounted s next _),
          reset_for_job_url, ← Multiset.cons_coe, ← Multiset.singleton_add]
        abel
      rw [hres]
      exact BookInv_transport heq rfl rfl rfl hInv
  · have hres : refill s b = (s, b) := by
      simp [refill, hmark]
    rw [hres]
    exact hInv

theorem error_not_accounted {s : Slot} (h : s.status = TabState.ERROR) :
    s.isAccounted = false := by
  simp [Slot.isAccounted, h, TabState.ERROR, COUNTED_MARK, RECYCLED_MARK,
    TabState.BLACKLISTED]

theorem done_not_accounted {s : Slot} (h : s.status = TabState.DONE) :
    s.isAccounted = false := by
  simp [Slot.isAccounted, h, TabState.DONE, COUNTED_MARK, RECYCLED_MARK,
    TabState.BLACKLISTED]

theorem recycleStep1_inv (now : Int) (total : Nat) (extra : Multiset String)
    (s : Slot) (b : Book)
    (hInv : BookInv total extra [s] b) :
    BookInv total extra [(recycleStep1 now s b).1] (recycleStep1 now s b).2 := by
  by_cases hdone : s.status = TabState.DONE
  · have hres : recycleStep1 now s b =
        ({ s.transition TabState.DONE "counted" with status := COUNTED_MARK },
         { b with moved := b.moved + 1 }) := by
      simp [recycleStep1, hdone]
    have hacc : s.isAccounted = false := done_not_accounted hdone
    have hacc1 : ({ s.transition TabState.DONE "counted" with
        status := COUNTED_MARK } : Slot).isAccounted = true := by
      simp [Slot.isAccounted, COUNTED_MARK]
    have heq : stateKeys extra [s] b =
        s.job_url ::ₘ stateKeys extra
          [{ s.transition TabState.DONE "counted" with status := COUNTED_MARK }]
          { b with moved := b.moved + 1 } := by
      simp [stateKeys, inflightUrls_singleton_acc hacc1, inflightUrls_singleton_act hacc,
        ← Multiset.cons_coe, ← Multiset.singleton_add]
      abel
    rw [hres]
    exact BookInv_shrink heq (by dsimp only; omega) rfl hInv
  · by_cases herr : s.status = TabState.ERROR
    · have hacc : s.isAccounted = false := error_not_accounted herr
      by_cases hth : BLACKLIST_THRESHOLD ≤ s.consecutive_errors
      · have hres : recycleStep1 now s b =
            ({ s with status := TabState.BLACKLISTED },
             { b with
               blacklisted_urls := s.job_url :: b.blacklisted_urls
               permanently_failed := b.permanently_failed ++ [s.job_url]
               ledger := URLCoordinator.mark_failed now b.ledger s.job_url
                           ("blacklisted: " ++ s.error_msg) }) := by
          simp [recycleStep1, hdone, herr, hth, TabState.ERROR, TabState.DONE]
        have hacc1 : ({ s with status := TabState.BLACKLISTED } : Slot).isAccounted
            = true := by
          simp [Slot.isAccounted, TabState.BLACKLISTED]
        have heq : stateKeys extra [s] b =
            s.job_url ::ₘ stateKeys extra [{ s with status := TabState.BLACKLISTED }]
              { b with
                blacklisted_urls := s.job_url :: b.blacklisted_urls
                permanently_failed := b.permanently_failed ++ [s.job_url]
                ledger := URLCoordinator.mark_failed now b.ledger s.job_url
                            ("blacklisted: " ++ s.error_msg) } := by
          simp [stateKeys, inflightUrls_singleton_acc hacc1,
            inflightUrls_singleton_act hacc,
            ← Multiset.cons_coe, ← Multiset.singleton_add]
          abel
        rw [hres]
        exact BookInv_blacklist heq
          (by dsimp only; simp only [List.length_append, List.length_cons, List.length_nil]; omega)
          rfl hInv
      · by_cases hrt : rtGet b.retry_tracker s.job_url < MAX_CARD_RETRIES
        · have hres : recycleStep1 now s b =
              ({ s with status := RECYCLED_MARK },
               { b with
                 retry_tracker := rtSet b.retry_tracker s.job_url
                   (rtGet b.retry_tracker s.job_url + 1)
                 queue := b.queue ++ [s.job_url] }) := by
            simp [recycleStep1, hdone, herr, hth, hrt, TabState.ERROR, TabState.DONE]
          have hacc1 : ({ s with status := RECYCLED_MARK } : Slot).isAccounted
              = true := by
            simp [Slot.isAccounted, RECYCLED_MARK]
          have heq : stateKeys extra [s] b =
              stateKeys extra [{ s with status := RECYCLED_MARK }]
                { b with
                  retry_tracker := rtSet b.retry_tracker s.job_url
                    (rtGet b.retry_tracker s.job_url + 1)
                  queue := b.queue ++ [s.job_url] } := by
            simp [stateKeys, inflightUrls_singleton_acc hacc1,
              inflightUrls_singleton_act hacc, ← Multiset.coe_add,
              ← Multiset.cons_coe, ← Multiset.singleton_add]
            abel
          rw [hres]
          exact BookInv_transport heq rfl rfl rfl hInv
        · have hres : recycleStep1 now s b =
              ({ s with status := RECYCLED_MARK },
               { b with
                 permanently_failed := b.permanently_failed ++ [s.job_url]
                 ledger := URLCoordinator.mark_failed now b.ledger s.job_url
                             s.error_msg }) := by
            simp [recycleStep1, hdone, herr, hth, hrt, TabState.ERROR, TabState.DONE]
          have hacc1 : ({ s with status := RECYCLED_MARK } : Slot).isAccounted
              = true := by
            simp [Slot.isAccounted, RECYCLED_MARK]
          have heq : stateKeys extra [s] b =
              s.job_url ::ₘ stateKeys extra [{ s with status := RECYCLED_MARK }]
                { b with
                  permanently_failed := b.permanently_failed ++ [s.job_url]
                  ledger := URLCoordinator.mark_failed now b.ledger s.job_url
                              s.error_msg } := by
            simp [stateKeys, inflightUrls_singleton_acc hacc1,
              inflightUrls_singleton_act hacc,
              ← Multiset.cons_coe, ← Multiset.singleton_add]
            abel
          rw [hres]
          exact BookInv_shrink heq
            (by dsimp only; simp only [List.length_append, List.length_cons, List.length_nil]; omega)
            rfl hInv
    · have hres : recycleStep1 now s b = (s, b) := by
        simp [recycleStep1, hdone, herr]
      rw [hres]
      exact hInv

theorem isAccounted_false_of_mem_nonTerminal {s : Slot}
    (h : s.status ∈ nonTerminalStates) : s.isAccounted = false := by
  simp [nonTerminalStates, TabState.PENDING, TabState.NAVIGATING, TabState.DETAIL_WAIT,
    TabState.SCANNING, TabState.NULL_CLICKED, TabState.CONVERTING, TabState.READY,
    TabState.ADD_CLICKED, TabState.CONFIRMING, TabState.VERIFYING] at h
  rcases h with h|h|h|h|h|h|h|h|h|h <;>
    simp [Slot.isAccounted, h, COUNTED_MARK, RECYCLED_MARK, TabState.BLACKLISTED]

theorem isAccounted_false_of_ne {s : Slot} (h1 : s.status ≠ COUNTED_MARK)
    (h2 : s.status ≠ RECYCLED_MARK) (h3 : s.status ≠ TabState.BLACKLISTED) :
    s.isAccounted = false := by
  simp [Slot.isAccounted, h1, h2, h3]

theorem stateKeys_cons_left (extra : Multiset String) (s : Slot) (rest : List Slot)
    (b : Book) :
    stateKeys extra (s :: rest) b =
      stateKeys (extra + (inflightUrls [s] : Multiset String)) rest b := by
  by_cases h : s.isAccounted <;>
    simp [stateKeys, inflightUrls, h, ← Multiset.cons_coe, ← Multiset.singleton_add] <;>
    abel

theorem processSlot_inv (now : Int) (oracle : Slot → Ledger → Slot × Ledger)
    (hOk : TickOK oracle) (total : Nat) (extra : Multiset String)
    (s : Slot) (b : Book) (hInv : BookInv total extra [s] b) :
    BookInv total extra [(processSlot now oracle s b).1]
      (processSlot now oracle s b).2 := by
  by_cases hterm : s.status = TabState.DONE ∨ s.status = TabState.ERROR ∨
      s.status = TabState.BLACKLISTED
  · have hres : processSlot now oracle s b = recycleSlot now s b := by
      simp [processSlot, hterm]
    rw [hres]
    unfold recycleSlot
    exact refill_inv _ _ _ _ (recycleStep1_inv now total extra s b hInv)
  · by_cases hdisp : s.status ∈ nonTerminalStates
    · have hres : processSlot now oracle s b =
          ((oracle { s with tick_count := s.tick_count + 1 } b.ledger).1,
           { b with
             ledger := (oracle { s with tick_count := s.tick_count + 1 } b.ledger).2 }) := by
        simp [processSlot, hterm, hdisp]
      have hacc : s.isAccounted = false := isAccounted_false_of_mem_nonTerminal hdisp
      obtain ⟨hurl, hne1, hne2, hne3⟩ :=
        hOk { s with tick_count := s.tick_count + 1 } b.ledger
      have hacc2 : (oracle { s with tick_count := s.tick_count + 1 } b.ledger).1.isAccounted
          = false := isAccounted_false_of_ne hne1 hne2 hne3
      have heq : stateKeys extra [s] b =
          stateKeys extra
            [(oracle { s with tick_count := s.tick_count + 1 } b.ledger).1]
            { b with
              ledger := (oracle { s with tick_count := s.tick_count + 1 } b.ledger).2 } := by
        simp [stateKeys, inflightUrls_singleton_act hacc,
          inflightUrls_singleton_act hacc2, hurl]
      rw [hres]
      exact BookInv_transport heq rfl rfl rfl hInv
    · have hres : processSlot now oracle s b =
          ({ s with tick_count := s.tick_count + 1 }, b) := by
        simp [processSlot, hterm, hdisp]
      have hsa : ({ s with tick_count := s.tick_count + 1 } : Slot).isAccounted
          = s.isAccounted := rfl
      have heq : stateKeys extra [s] b =
          stateKeys extra [({ s with tick_count := s.tick_count + 1 } : Slot)] b := by
        by_cases hsb : s.isAccounted = true
        · simp [stateKeys, inflightUrls_singleton_acc hsb,
            inflightUrls_singleton_acc (hsa.trans hsb)]
        · have hsb2 : s.isAccounted = false := by simpa using hsb
          simp [stateKeys, inflightUrls_singleton_act hsb2,
            inflightUrls_singleton_act (hsa.trans hsb2)]
      rw [hres]
      exact BookInv_transport heq rfl rfl rfl hInv

theorem processSlots_inv (now : Int) (oracle : Slot → Ledger → Slot × Ledger)
    (hOk : TickOK oracle) (total : Nat) :
    ∀ (slots : List Slot) (extra : Multiset String) (b : Book),
      BookInv total extra slots b →
      BookInv total extra (processSlots now oracle slots b).1
        (processSlots now oracle slots b).2 := by
  intro slots
  induction slots with
  | nil => intro extra b h; simpa [processSlots] using h
  | cons s rest ih =>
    intro extra b hInv
    have h1 : BookInv total (extra + (inflightUrls rest : Multiset String)) [s] b :=
      (BookInv_congr (stateKeys_cons extra s rest b)).mp hInv
    have h2 := processSlot_inv now oracle hOk total _ s b h1
    have e1 := stateKeys_cons extra (processSlot now oracle s b).1 rest
      (processSlot now oracle s b).2
    have e2 := stateKeys_cons_left extra (processSlot now oracle s b).1 rest
      (processSlot now oracle s b).2
    have h3 : BookInv total
        (extra + (inflightUrls [(processSlot now oracle s b).1] : Multiset String))
        rest (processSlot now oracle s b).2 :=
      (BookInv_congr (e1.symm.trans e2)).mp h2
    have h4 := ih _ _ h3
    have h5 := (BookInv_congr (stateKeys_cons_left extra (processSlot now oracle s b).1
      (processSlots now oracle rest (processSlot now oracle s b).2).1
      (processSlots now oracle rest (processSlot now oracle s b).2).2)).mpr h4
    simpa [processSlots] using h5

theorem runRound_inv (now : Int) (oracle : Slot → Ledger → Slot × Ledger)
    (hOk : TickOK oracle) (total : Nat) (ps : PState)
    (hInv : PipelineInv total ps) :
    PipelineInv total (runRound now oracle ps) := by
  unfold PipelineInv runRound
  exact processSlots_inv now oracle hOk total ps.slots 0 ps.book hInv

theorem step_inv {total : Nat} {ps ps' : PState}
    (h : PipelineStep ps ps') (hInv : PipelineInv total ps) :
    PipelineInv total ps' := by
  cases h with
  | round now oracle _ hOk => exact runRound_inv now oracle hOk total ps hInv

theorem reaches_inv {total : Nat} {ps ps' : PState}
    (h : PipelineReaches ps ps') (hInv : PipelineInv total ps) :
    PipelineInv total ps' := by
  induction h with
  | refl => exact hInv
  | tail _ hstep ih => exact step_inv hstep ih

theorem recycleStep1_blacklist_mono (now : Int) (s : Slot) (b : Book) {u : String}
    (h : u ∈ b.blacklisted_urls) :
    u ∈ (recycleStep1 now s b).2.blacklisted_urls := by
  unfold recycleStep1
  dsimp only
  split_ifs <;> simp_all

theorem refill_blacklist_mono (s : Slot) (b : Book) {u : String}
    (h : u ∈ b.blacklisted_urls) :
    u ∈ (refill s b).2.blacklisted_urls := by
  unfold refill
  split_ifs with h1
  · cases hq : b.queue with
    | nil => simpa [hq] using h
    | cons next rest =>
      simp only [hq]
      split_ifs <;> simpa using h
  · simpa using h

theorem processSlot_blacklist_mono (now : Int)
    (oracle : Slot → Ledger → Slot × Ledger) (s : Slot) (b : Book) {u : String}
    (h : u ∈ b.blacklisted_urls) :
    u ∈ (processSlot now oracle s b).2.blacklisted_urls := by
  by_cases hterm : s.status = TabState.DONE ∨ s.status = TabState.ERROR ∨
      s.status = TabState.BLACKLISTED
  · have hres : processSlot now oracle s b = recycleSlot now s b := by
      simp [processSlot, hterm]
    rw [hres]
    unfold recycleSlot
    exact refill_blacklist_mono _ _ (recycleStep1_blacklist_mono now s b h)
  · by_cases hdisp : s.status ∈ nonTerminalStates
    · have hres : processSlot now oracle s b =
          ((oracle { s with tick_count := s.tick_count + 1 } b.ledger).1,
           { b with
             ledger := (oracle { s with tick_count := s.tick_count + 1 } b.ledger).2 }) := by
        simp [processSlot, hterm, hdisp]
      rw [hres]
      simpa using h
    · have hres : processSlot now oracle s b =
          ({ s with tick_count := s.tick_count + 1 }, b) := by
        simp [processSlot, hterm, hdisp]
      rw [hres]
      simpa using h

theorem processSlots_blacklist_mono (now : Int)
    (oracle : Slot → Ledger → Slot × Ledger) :
    ∀ (slots : List Slot) (b : Book) {u : String},
      u ∈ b.blacklisted_urls →
      u ∈ (processSlots now oracle slots b).2.blacklisted_urls := by
  intro slots
  induction slots with
  | nil => intro b u h; simpa [processSlots] using h
  | cons s rest ih =>
    intro b u h
    have h1 := processSlot_blacklist_mono now oracle s b h
    simpa [processSlots] using ih _ h1

theorem step_blacklist_mono {ps ps' : PState} (h : PipelineStep ps ps')
    {u : String} (hu : u ∈ ps.book.blacklisted_urls) :
    u ∈ ps'.book.blacklisted_urls := by
  cases h with
  | round now oracle _ hOk =>
    exact processSlots_blacklist_mono now oracle ps.slots ps.book hu

theorem reaches_blacklist_mono {ps ps' : PState} (h : PipelineReaches ps ps')
    {u : String} (hu : u ∈ ps.book.blacklisted_urls) :
    u ∈ ps'.book.blacklisted_urls := by
  induction h with
  | refl => exact hu
  | tail _ hstep ih => exact step_blacklist_mono hstep ih

/-! ## The granted list of a batch claim has no duplicates -/

/-- A key whose entry is freshly held as of `now`. -/
def HeldNow (now : Int) (d : Ledger) (u : String) : Prop :=
  ∃ e, d.get? u = some e ∧ e.status = some STATUS_HELD ∧ e.updated_at = some now

theorem claim_cases (st now : Int) (d : Ledger) (url holder : String) :
    URLCoordinator.claim st now d url holder = (false, d) ∨
    ((URLCoordinator.claim st now d url holder).1 = true ∧
     (URLCoordinator.claim st now d url holder).2 =
       d.set url
         { status := some STATUS_HELD, holder := some holder, worker := none,
           claimed_at := some (match d.get? url with
                               | some e => e.claimed_at.getD now
                               | none => now),
           updated_at := some now, error := none }) := by
  unfold URLCoordinator.claim
  dsimp only
  split_ifs with hc
  · exact Or.inl rfl
  · exact Or.inr ⟨rfl, rfl⟩

theorem claim_denied_ledger {st now : Int} {d : Ledger} {url holder : String}
    (h : (URLCoordinator.claim st now d url holder).1 = false) :
    (URLCoordinator.claim st now d url holder).2 = d := by
  rcases claim_cases st now d url holder with hc | ⟨hg, _⟩
  · rw [hc]
  · rw [hg] at h
    simp at h

theorem claim_granted_sets {st now : Int} {d : Ledger} {url holder : String}
    (h : (URLCoordinator.claim st now d url holder).1 = true) :
    HeldNow now (URLCoordinator.claim st now d url holder).2 url := by
  rcases claim_cases st now d url holder with hc | ⟨_, hset⟩
  · rw [hc] at h
    simp at h
  · rw [hset]
    exact ⟨_, Ledger.get?_set_self _ _ _, rfl, rfl⟩

theorem claim_preserves_other {st now : Int} {d : Ledger} {url holder v : String}
    (hne : v ≠ url) :
    (URLCoordinator.claim st now d url holder).2.get? v = d.get? v := by
  rcases claim_cases st now d url holder with hc | ⟨_, hset⟩
  · rw [hc]
  · rw [hset]
    exact Ledger.get?_set_ne d hne _

theorem claim_denies_fresh_held {st now : Int} {d : Ledger} {url holder : String}
    (hst : 0 < st) (hheld : HeldNow now d url) :
    (URLCoordinator.claim st now d url holder).1 = false := by
  obtain ⟨e, hget, hs, hu⟩ := hheld
  have : now - e.updated_at.getD 0 < st := by rw [hu]; simpa using hst
  simp [URLCoordinator.claim, hget, hs, this, STATUS_HELD, STATUS_DONE, STATUS_FAILED]

theorem batchClaimGo_nodup (st now : Int) (holder : String) (hst : 0 < st) :
    ∀ (urls : List String) (d : Ledger) (g0 d0 : List String),
      (∀ u ∈ g0, HeldNow now d u) → g0.Nodup →
      (URLCoordinator.batchClaimGo st now holder urls d g0 d0).1.Nodup ∧
      ∀ u ∈ (URLCoordinator.batchClaimGo st now holder urls d g0 d0).1,
        HeldNow now (URLCoordinator.batchClaimGo st now holder urls d g0 d0).2.2 u := by
  intro urls
  induction urls with
  | nil =>
    intro d g0 d0 hheld hnd
    exact ⟨hnd, hheld⟩
  | cons u rest ih =>
    intro d g0 d0 hheld hnd
    by_cases hg : (URLCoordinator.claim st now d u holder).1 = true
    · have hnotin : u ∉ g0 := by
        intro hmem
        have := @claim_denies_fresh_held st now d u holder hst (hheld u hmem)
        rw [hg] at this
        simp at this
      have hheld' : ∀ v ∈ g0 ++ [u],
          HeldNow now (URLCoordinator.claim st now d u holder).2 v := by
        intro v hv
        rcases List.mem_append.mp hv with hv | hv
        · obtain ⟨e, hget, hs, hup⟩ := hheld v hv
          by_cases hvu : v = u
          · subst hvu
            exact claim_granted_sets hg
          · exact ⟨e, (claim_preserves_other hvu).trans hget, hs, hup⟩
        · rw [List.mem_singleton.mp hv]
          exact claim_granted_sets hg
      have hnd' : (g0 ++ [u]).Nodup := by
        simp [List.nodup_append, hnd, hnotin]
      have := ih (URLCoordinator.claim st now d u holder).2 (g0 ++ [u]) d0 hheld' hnd'
      simpa [URLCoordinator.batchClaimGo, hg] using this
    · have hg' : (URLCoordinator.claim st now d u holder).1 = false := by
        simpa using hg
      have hd : (URLCoordinator.claim st now d u holder).2 = d :=
        claim_denied_ledger hg'
      have := ih (URLCoordinator.claim st now d u holder).2 g0 (d0 ++ [u])
        (by rw [hd]; exact hheld) hnd
      simpa [URLCoordinator.batchClaimGo, hg'] using this

/-- With a positive stale timeout, the granted list of a file-coordinator
batch claim contains no duplicates: the first grant of a key leaves it
freshly held, so a repeated key in the same batch is denied. -/
theorem batch_claim_granted_nodup (st now : Int) (d : Ledger)
    (urls : List String) (holder : String) (hst : 0 < st) :
    (URLCoordinator.batch_claim st now d urls holder).1.Nodup :=
  (batchClaimGo_nodup st now holder hst urls d [] [] (by simp) (by simp)).1

/-! ## Initial pipeline invariant -/

theorem new_not_accounted (u : String) : (Slot.new u).isAccounted = false := by
  simp [Slot.new, Slot.isAccounted, TabState.PENDING, COUNTED_MARK, RECYCLED_MARK,
    TabState.BLACKLISTED]

theorem inflightUrls_map_new (l : List String) :
    inflightUrls (l.map Slot.new) = l := by
  induction l with
  | nil => rfl
  | cons u rest ih =>
    rw [List.map_cons, inflightUrls_cons,
      inflightUrls_singleton_act (new_not_accounted u), ih]
    rfl

theorem initPipeline_inv (granted : List String) (n : Nat) (led : Ledger)
    (hnd : granted.Nodup) :
    PipelineInv granted.length (initPipeline granted n led) := by
  unfold PipelineInv initPipeline BookInv stateKeys
  dsimp only
  rw [inflightUrls_map_new]
  have hperm : (granted.drop (min n granted.length) ++
      granted.take (min n granted.length)).Perm granted := by
    have h1 := List.take_append_drop (min n granted.length) granted
    have h2 : (granted.drop (min n granted.length) ++
        granted.take (min n granted.length)).Perm
        (granted.take (min n granted.length) ++
          granted.drop (min n granted.length)) := List.perm_append_comm
    rw [h1] at h2
    exact h2
  refine ⟨?_, ?_, ?_⟩
  · simp [← Multiset.coe_add]
  · have : (granted.drop (min n granted.length) ++
        granted.take (min n granted.length)).Nodup := hperm.nodup_iff.mpr hnd
    simpa [← Multiset.coe_add] using this
  · intro u _hu
    simp

/-! ## Orchestrator conservation (C8) -/

/-- The sum named by the claim, counting only slots in a non-terminal
state-machine state: completed + permanently failed + queued +
non-terminal-slot keys. -/
def specConservationSum (ps : PState) : Nat :=
  ps.book.moved + ps.book.permanently_failed.length + ps.book.queue.length +
    (ps.slots.filter (fun s => nonTerminalStates.contains s.status)).length

/-- The tick behaviour of the counterexample round: the environment
completes the slot's work in one tick (a legal tick outcome: url preserved,
no bookkeeping marker set). -/
def cexOracle : Slot → Ledger → Slot × Ledger :=
  fun s led => ({ s with status := TabState.DONE }, led)

theorem cexOracle_ok : TickOK cexOracle := by
  intro s led
  refine ⟨rfl, ?_, ?_, ?_⟩ <;>
    simp [cexOracle, TabState.DONE, COUNTED_MARK, RECYCLED_MARK, TabState.BLACKLISTED]

/-- The initial state of the counterexample run: one key, one slot. -/
def cexInit : PState :=
  runPipelineInit 1800 0 Ledger.empty ["A"] "top_down" 1

/-- The counterexample state: after one round the slot rests in terminal
DONE status, not yet recycled. -/
def cexAfter : PState :=
  runRound 0 cexOracle cexInit

/-- Counterexample to C8 as stated: one key is granted by the initial batch
claim, and after one legal round the key's slot sits in terminal DONE
status awaiting recycling — it occupies no non-terminal slot, is not
queued, and is in no count yet, so the claimed sum is 0, not 1. -/
theorem pipeline_count_cex :
    PipelineReaches cexInit cexAfter ∧
    (URLCoordinator.batch_claim 1800 0 Ledger.empty ["A"] "top_down").1.length = 1 ∧
    specConservationSum cexAfter = 0 := by
  refine ⟨?_, by decide, by decide⟩
  exact Relation.ReflTransGen.single (PipelineStep.round 0 cexOracle cexInit cexOracle_ok)

/-- C8 (amended): at every reachable point of an orchestrator run started
from a batch claim with positive stale timeout, the completed count plus
the permanently-failed count plus the keys still queued or occupying a slot
not yet recycled into the bookkeeping (terminal DONE/ERROR slots awaiting
recycling included) equals the number of keys granted by the initial batch
claim. -/
theorem pipeline_conservation (st now : Int) (d : Ledger) (urls : List String)
    (holder : String) (n : Nat) (ps : PState)
    (hst : 0 < st)
    (hreach : PipelineReaches (runPipelineInit st now d urls holder n) ps) :
    ps.book.moved + ps.book.permanently_failed.length + ps.book.queue.length +
      (ps.slots.filter (fun s => ! s.isAccounted)).length =
      (URLCoordinator.batch_claim st now d urls holder).1.length := by
  have hnd : (URLCoordinator.batch_claim st now d urls holder).1.Nodup :=
    batch_claim_granted_nodup st now d urls holder hst
  have hinit : PipelineInv (URLCoordinator.batch_claim st now d urls holder).1.length
      (runPipelineInit st now d urls holder n) :=
    initPipeline_inv _ n _ hnd
  have hfinal := reaches_inv hreach hinit
  obtain ⟨hcard, _, _⟩ := hfinal
  rw [← hcard]
  simp [stateKeys, inflightUrls, ← Multiset.coe_add]
  omega

/-- Witness for C8 at a concrete input: the initial state itself (zero
rounds), one key granted, stale timeout 1800. -/
theorem pipeline_conservation_witness :
    cexInit.book.moved + cexInit.book.permanently_failed.length +
      cexInit.book.queue.length +
      (cexInit.slots.filter (fun s => ! s.isAccounted)).length =
      (URLCoordinator.batch_claim 1800 0 Ledger.empty ["A"] "top_down").1.length :=
  pipeline_conservation 1800 0 Ledger.empty ["A"] "top_down" 1 cexInit
    (by decide) Relation.ReflTransGen.refl

/-! ## Blacklist threshold policy (C7) -/

theorem refill_book_frame (s : Slot) (b : Book) :
    (refill s b).2.moved = b.moved ∧
    (refill s b).2.permanently_failed = b.permanently_failed ∧
    (refill s b).2.blacklisted_urls = b.blacklisted_urls ∧
    (refill s b).2.ledger = b.ledger ∧
    ((refill s b).2.queue = b.queue ∨ (refill s b).2.queue = b.queue.tail) := by
  unfold refill
  split_ifs with h1
  · cases hq : b.queue with
    | nil => simp [hq]
    | cons next rest =>
      simp only [hq]
      split_ifs <;> simp
  · simp

/-- C7: (i) recycling a slot in ERROR status whose consecutive-error count
has reached BLACKLIST_THRESHOLD blacklists its key, records it permanently
failed, reports mark_failed (with the blacklisted-prefixed reason) to the
coordinator, and never pushes the key back onto the queue; (ii) recycling a
DONE slot counts it as moved and touches neither the blacklist nor the
permanently-failed record; (iii) the transition function increments the
consecutive-error count on ERROR and resets it to zero on DONE, so a slot
that errors BLACKLIST_THRESHOLD − 1 times and then completes carries count
zero; (iv) once a key is blacklisted it stays blacklisted and never
reappears in the pending queue at any later reachable state. -/
theorem blacklist_threshold_policy
    (now : Int) (oracle : Slot → Ledger → Slot × Ledger)
    (s t u : Slot) (b c : Book) (m1 m2 m3 : String)
    (herr : s.status = TabState.ERROR)
    (hce : BLACKLIST_THRESHOLD ≤ s.consecutive_errors)
    (hdone : t.status = TabState.DONE) :
    (s.job_url ∈ (processSlot now oracle s b).2.blacklisted_urls ∧
     s.job_url ∈ (processSlot now oracle s b).2.permanently_failed ∧
     (∃ e, (processSlot now oracle s b).2.ledger.get? s.job_url = some e ∧
        e.status = some STATUS_FAILED ∧
        e.error = some (pyTake 200 ("blacklisted: " ++ s.error_msg))) ∧
     (s.job_url ∉ b.queue → s.job_url ∉ (processSlot now oracle s b).2.queue)) ∧
    ((processSlot now oracle t c).2.moved = c.moved + 1 ∧
     (processSlot now oracle t c).2.blacklisted_urls = c.blacklisted_urls ∧
     (processSlot now oracle t c).2.permanently_failed = c.permanently_failed) ∧
    ((u.transition TabState.ERROR m1).consecutive_errors = u.consecutive_errors + 1 ∧
     (u.transition TabState.DONE m3).consecutive_errors = 0 ∧
     (((u.transition TabState.ERROR m1).transition TabState.ERROR m2).transition
        TabState.DONE m3).consecutive_errors = 0) ∧
    (∀ (total : Nat) (ps ps' : PState) (v : String),
      PipelineInv total ps → v ∈ ps.book.blacklisted_urls →
      PipelineReaches ps ps' →
      v ∈ ps'.book.blacklisted_urls ∧ v ∉ ps'.book.queue) := by
  have hterm : s.status = TabState.DONE ∨ s.status = TabState.ERROR ∨
      s.status = TabState.BLACKLISTED := Or.inr (Or.inl herr)
  have hterm_t : t.status = TabState.DONE ∨ t.status = TabState.ERROR ∨
      t.status = TabState.BLACKLISTED := Or.inl hdone
  have hndone : ¬ s.status = TabState.DONE := by
    rw [herr]; decide
  have hps : processSlot now oracle s b = recycleSlot now s b := by
    simp [processSlot, hterm]
  have hpt : processSlot now oracle t c = recycleSlot now t c := by
    simp [processSlot, hterm_t]
  have hstep1 : recycleStep1 now s b =
      ({ s with status := TabState.BLACKLISTED },
       { b with
         blacklisted_urls := s.job_url :: b.blacklisted_urls
         permanently_failed := b.permanently_failed ++ [s.job_url]
         ledger := URLCoordinator.mark_failed now b.ledger s.job_url
                     ("blacklisted: " ++ s.error_msg) }) := by
    simp [recycleStep1, hndone, herr, hce, TabState.ERROR, TabState.DONE]
  have hstep1_t : recycleStep1 now t c =
      ({ t.transition TabState.DONE "counted" with status := COUNTED_MARK },
       { c with moved := c.moved + 1 }) := by
    simp [recycleStep1, hdone]
  refine ⟨?_, ?_, ?_, ?_⟩
  · rw [hps]
    unfold recycleSlot
    rw [hstep1]
    obtain ⟨_, hpf, hbl, hld, hqu⟩ := refill_book_frame
      ({ s with status := TabState.BLACKLISTED } : Slot)
      { b with
        blacklisted_urls := s.job_url :: b.blacklisted_urls
        permanently_failed := b.permanently_failed ++ [s.job_url]
        ledger := URLCoordinator.mark_failed now b.ledger s.job_url
                    ("blacklisted: " ++ s.error_msg) }
    rw [hpf, hbl, hld]
    refine ⟨List.mem_cons_self _ _, by simp, ?_, ?_⟩
    · exact ⟨_, Ledger.get?_set_self _ _ _, rfl, rfl⟩
    · intro hnq
      rcases hqu with hq | hq <;> rw [hq] <;> dsimp only
      · exact hnq
      · intro hmem
        exact hnq (List.mem_of_mem_tail hmem)
  · rw [hpt]
    unfold recycleSlot
    rw [hstep1_t]
    obtain ⟨hm, hpf, hbl, _, _⟩ := refill_book_frame
      ({ t.transition TabState.DONE "counted" with status := COUNTED_MARK } : Slot)
      { c with moved := c.moved + 1 }
    rw [hm, hpf, hbl]
    exact ⟨rfl, rfl, rfl⟩
  · refine ⟨?_, ?_, ?_⟩ <;>
      simp [Slot.transition, TabState.ERROR, TabState.DONE]
  · intro total ps ps' v hinv hv hreach
    refine ⟨reaches_blacklist_mono hreach hv, ?_⟩
    have hinv' := reaches_inv hreach hinv
    have hvb := reaches_blacklist_mono hreach hv
    intro hq
    have hmem : v ∈ stateKeys 0 ps'.slots ps'.book := by
      simp only [stateKeys, Multiset.mem_add]
      exact Or.inl (Or.inr (by simpa using hq))
    exact (hinv'.2.2 v hmem) hvb

/-- Witness for C7: a slot that errored three times on key "B" is
blacklisted and recorded failed by the recycle step; a DONE slot on key
"A" is counted as moved and nothing is blacklisted. -/
theorem blacklist_threshold_policy_witness :
    "B" ∈ (processSlot 0 (fun s led => (s, led))
      ⟨"B", "error", "boom", 3, 0, 0⟩
      ⟨[], 0, [], [], [], Ledger.empty⟩).2.blacklisted_urls ∧
    "B" ∈ (processSlot 0 (fun s led => (s, led))
      ⟨"B", "error", "boom", 3, 0, 0⟩
      ⟨[], 0, [], [], [], Ledger.empty⟩).2.permanently_failed ∧
    (processSlot 0 (fun s led => (s, led))
      ⟨"A", "done", "", 0, 0, 0⟩
      ⟨[], 0, [], [], [], Ledger.empty⟩).2.moved = 1 ∧
    (processSlot 0 (fun s led => (s, led))
      ⟨"A", "done", "", 0, 0, 0⟩
      ⟨[], 0, [], [], [], Ledger.empty⟩).2.blacklisted_urls = [] :=
  have h := blacklist_threshold_policy 0 (fun s led => (s, led))
    ⟨"B", "error", "boom", 3, 0, 0⟩ ⟨"A", "done", "", 0, 0, 0⟩ (Slot.new "C")
    ⟨[], 0, [], [], [], Ledger.empty⟩ ⟨[], 0, [], [], [], Ledger.empty⟩
    "m1" "m2" "m3" rfl (by decide) rfl
  ⟨h.1.1, h.1.2.1, h.2.1.1, h.2.1.2.1⟩
